import Mathlib

/-!
Verification of the SIRN epidemic integrator from
`src/Visualization/sirn_data_generator.py` (function `generate_sirn_data`)
and its copy in `src/Visualization/dynamic_visualization.py` (`run_demo`).

The integrator advances a state (S, I, R) with fixed total population N by
explicit Euler sub-stepping.  Each sub-step (lines 110-128 of the generator):
  1. Euler update:  dS = -beta*S*I/N*sub_dt, dI = (beta*S*I/N - gamma*I)*sub_dt,
     dR = gamma*I*sub_dt;  S += dS; I += dI; R += dR.
  2. Clamp:  S, I, R := max 0 _.
  3. Renormalize: total = S+I+R; if |total - N| > 1e-9 then multiply each
     compartment by N/total.
The arithmetic is embedded over ℚ (exact field arithmetic standing for the
real-valued algorithm; Python float literals 1e-9, 1e-6 become the exact
rationals 1/10^9, 1/10^6).  In ℚ, `x / 0 = 0`; the safety claim about the
renormalization divisor is stated explicitly about the divisor value.
-/

namespace SIRN

/-- The compartment state (S, I, R) of one city; the population N is carried
separately, exactly as in the Python code where `N` is a loop constant. -/
structure SIR where
  S : ℚ
  I : ℚ
  R : ℚ
  deriving DecidableEq, Repr

/-- `S + I + R`, the quantity the code calls `total`. -/
def total (st : SIR) : ℚ := st.S + st.I + st.R

/-- The Euler update of one sub-step (lines 110-116 of the generator):
derivatives are computed from the incoming state, then added on. -/
def eulerStep (beta gamma N sub_dt : ℚ) (st : SIR) : SIR :=
  { S := st.S + (-beta * st.S * st.I / N * sub_dt)
    I := st.I + ((beta * st.S * st.I / N - gamma * st.I) * sub_dt)
    R := st.R + (gamma * st.I * sub_dt) }

/-- The clamp of one sub-step (lines 118-121): `S = max(0, S)` etc. -/
def clampStep (st : SIR) : SIR :=
  { S := max 0 st.S, I := max 0 st.I, R := max 0 st.R }

/-- The drift correction of one sub-step (lines 123-128): if
`|total - N| > 1e-9`, rescale every compartment by `N / total`. -/
def renormStep (N : ℚ) (st : SIR) : SIR :=
  if |total st - N| > 1 / 1000000000 then
    { S := st.S * N / total st
      I := st.I * N / total st
      R := st.R * N / total st }
  else st

/-- One full sub-step of the non-stochastic integrator
(`beta = beta_base`, `gamma = gamma_base`): Euler update, clamp,
renormalization, in the order of lines 110-128. -/
def subStep (beta gamma N sub_dt : ℚ) (st : SIR) : SIR :=
  renormStep N (clampStep (eulerStep beta gamma N sub_dt st))

/-- A recorded data point `[S, I, R, N]` at time `t`
(line 131: `data[city_str][str(t)] = [float(S), float(I), float(R), float(N)]`). -/
structure Record where
  t : ℚ
  S : ℚ
  I : ℚ
  R : ℚ
  N : ℚ
  deriving DecidableEq, Repr

/-- Pack the running state and the loop-constant `N` into a data point. -/
def mkRecord (t N : ℚ) (st : SIR) : Record :=
  { t := t, S := st.S, I := st.I, R := st.R, N := N }

/-- The time loop of `generate_sirn_data` (lines 93-131) for one city:
for each requested time `t`, integrate from the previous time with
`num_substeps = 10` and `sub_dt = (t - previous_t) / 10`, then record. -/
def cityLoop (beta gamma N : ℚ) : ℚ → SIR → List ℚ → List Record
  | _, _, [] => []
  | prevT, st, t :: ts =>
      let sub_dt := (t - prevT) / 10
      let st' := (subStep beta gamma N sub_dt)^[10] st
      mkRecord t N st' :: cityLoop beta gamma N t st' ts

/-- The per-city body of `generate_sirn_data` (lines 64-131):
`N = population + initial_infected`, `S0 = N - initial_infected`,
`I0 = initial_infected`, `R0 = 0`; the `t = 0` record comes first, then the
time loop starting from time 0. -/
def generateCityData (population initialInfected beta gamma : ℚ)
    (timePoints : List ℚ) : List Record :=
  let N := population + initialInfected
  let st0 : SIR := { S := N - initialInfected, I := initialInfected, R := 0 }
  mkRecord 0 N st0 :: cityLoop beta gamma N 0 st0 timePoints

/-! ### Basic algebraic facts about the sub-step phases -/

/-- The Euler update conserves `S + I + R` exactly: the three derivative
terms cancel algebraically. -/
theorem total_eulerStep (beta gamma N dt : ℚ) (st : SIR) :
    total (eulerStep beta gamma N dt st) = total st := by
  simp only [total, eulerStep]
  ring

/-- With no infected, every derivative vanishes and the Euler update is the
identity. -/
theorem eulerStep_of_I_eq_zero (beta gamma N dt : ℚ) (st : SIR) (h : st.I = 0) :
    eulerStep beta gamma N dt st = st := by
  cases st with
  | mk s i r =>
    simp only [SIR.mk.injEq] at h ⊢
    simp [eulerStep, h]

/-- Clamping a state whose compartments are already non-negative is the
identity. -/
theorem clampStep_eq_self (st : SIR) (hS : 0 ≤ st.S) (hI : 0 ≤ st.I)
    (hR : 0 ≤ st.R) : clampStep st = st := by
  cases st with
  | mk s i r =>
    simp only [clampStep, SIR.mk.injEq]
    exact ⟨max_eq_right hS, max_eq_right hI, max_eq_right hR⟩

/-- All compartments are non-negative after the clamp. -/
theorem clampStep_nonneg (st : SIR) :
    0 ≤ (clampStep st).S ∧ 0 ≤ (clampStep st).I ∧ 0 ≤ (clampStep st).R :=
  ⟨le_max_left 0 _, le_max_left 0 _, le_max_left 0 _⟩

/-- When the drift test fails, the renormalization is the identity. -/
theorem renormStep_eq_of_close (N : ℚ) (st : SIR)
    (h : ¬ |total st - N| > 1 / 1000000000) : renormStep N st = st := by
  simp only [renormStep]
  rw [if_neg h]

/-- When the drift test fires and the divisor is positive, the
renormalized compartments sum exactly to `N`. -/
theorem total_renormStep_of_fire (N : ℚ) (st : SIR) (hpos : 0 < total st)
    (hfire : |total st - N| > 1 / 1000000000) :
    total (renormStep N st) = N := by
  have ht : total st ≠ 0 := ne_of_gt hpos
  simp only [renormStep]
  rw [if_pos hfire]
  simp only [total] at ht ⊢
  field_simp
  ring

/-- Renormalization keeps all compartments non-negative as long as
`N` and the divisor are non-negative. -/
theorem renormStep_nonneg (N : ℚ) (st : SIR) (hN : 0 ≤ N) (hS : 0 ≤ st.S)
    (hI : 0 ≤ st.I) (hR : 0 ≤ st.R) (htot : 0 ≤ total st) :
    0 ≤ (renormStep N st).S ∧ 0 ≤ (renormStep N st).I ∧
      0 ≤ (renormStep N st).R := by
  simp only [renormStep]
  split
  · exact ⟨div_nonneg (mul_nonneg hS hN) htot,
      div_nonneg (mul_nonneg hI hN) htot, div_nonneg (mul_nonneg hR hN) htot⟩
  · exact ⟨hS, hI, hR⟩

/-- Evaluation rule for one sub-step in the regular regime: if the Euler
update produces non-negative values that still sum exactly to `N`, the
clamp and the renormalization are both the identity, so the sub-step just
performs the Euler update. -/
theorem subStep_eval (beta gamma N dt s i r s1 i1 r1 : ℚ)
    (hs1 : s + -beta * s * i / N * dt = s1)
    (hi1 : i + (beta * s * i / N - gamma * i) * dt = i1)
    (hr1 : r + gamma * i * dt = r1)
    (hs : 0 ≤ s1) (hi : 0 ≤ i1) (hr : 0 ≤ r1)
    (hsum : s1 + i1 + r1 = N) :
    subStep beta gamma N dt ⟨s, i, r⟩ = ⟨s1, i1, r1⟩ := by
  have he : eulerStep beta gamma N dt ⟨s, i, r⟩ = ⟨s1, i1, r1⟩ := by
    simp only [eulerStep]
    rw [SIR.mk.injEq]
    exact ⟨hs1, hi1, hr1⟩
  rw [subStep, he, clampStep_eq_self _ hs hi hr,
    renormStep_eq_of_close N _ (by simp only [total]; rw [hsum]; norm_num)]

/-- The state has non-negative compartments. -/
def StateNonneg (st : SIR) : Prop := 0 ≤ st.S ∧ 0 ≤ st.I ∧ 0 ≤ st.R

/-- The integrator's loop invariant: non-negative compartments with a
strictly positive sum. -/
def StateInv (st : SIR) : Prop := StateNonneg st ∧ 0 < total st

/-- Heart of the divisor-safety argument: after the Euler update and the
clamp, the sum is still strictly positive, provided the incoming state has
non-negative compartments with positive sum (and `gamma, dt > 0`).  If
`I = 0` the whole step is the identity; if `I > 0` the recovered
compartment strictly grows. -/
theorem total_clampStep_eulerStep_pos (beta gamma N dt : ℚ) (st : SIR)
    (hγ : 0 < gamma) (hdt : 0 < dt) (hS : 0 ≤ st.S) (hI : 0 ≤ st.I)
    (hR : 0 ≤ st.R) (hpos : 0 < total st) :
    0 < total (clampStep (eulerStep beta gamma N dt st)) := by
  rcases hI.eq_or_lt with h0 | hIpos
  · rw [eulerStep_of_I_eq_zero beta gamma N dt st h0.symm,
      clampStep_eq_self st hS hI hR]
    exact hpos
  · have hRpos : 0 < (eulerStep beta gamma N dt st).R := by
      simp only [eulerStep]
      have : 0 < gamma * st.I * dt := by positivity
      linarith
    have h1 : 0 ≤ max 0 (eulerStep beta gamma N dt st).S := le_max_left 0 _
    have h2 : 0 ≤ max 0 (eulerStep beta gamma N dt st).I := le_max_left 0 _
    have h3 : (eulerStep beta gamma N dt st).R ≤
        max 0 (eulerStep beta gamma N dt st).R := le_max_right 0 _
    simp only [total, clampStep]
    linarith

/-- One sub-step always outputs non-negative compartments (the clamp
enforces it and the renormalization preserves it), for `N ≥ 0`. -/
theorem subStep_stateNonneg (beta gamma N dt : ℚ) (st : SIR) (hN : 0 ≤ N) :
    StateNonneg (subStep beta gamma N dt st) := by
  obtain ⟨h1, h2, h3⟩ := clampStep_nonneg (eulerStep beta gamma N dt st)
  have htot : 0 ≤ total (clampStep (eulerStep beta gamma N dt st)) := by
    simp only [total]; linarith
  exact renormStep_nonneg N _ hN h1 h2 h3 htot

/-- One sub-step preserves the loop invariant when `N, gamma, dt > 0`. -/
theorem subStep_stateInv (beta gamma N dt : ℚ) (st : SIR) (hN : 0 < N)
    (hγ : 0 < gamma) (hdt : 0 < dt) (h : StateInv st) :
    StateInv (subStep beta gamma N dt st) := by
  obtain ⟨⟨hS, hI, hR⟩, hpos⟩ := h
  have hcpos := total_clampStep_eulerStep_pos beta gamma N dt st hγ hdt hS hI hR hpos
  refine ⟨subStep_stateNonneg beta gamma N dt st hN.le, ?_⟩
  by_cases hfire :
      |total (clampStep (eulerStep beta gamma N dt st)) - N| > 1 / 1000000000
  · rw [subStep, total_renormStep_of_fire N _ hcpos hfire]
    exact hN
  · rw [subStep, renormStep_eq_of_close N _ hfire]
    exact hcpos

/-- The loop invariant holds after any number of sub-steps. -/
theorem iterate_stateInv (beta gamma N dt : ℚ) (st : SIR) (hN : 0 < N)
    (hγ : 0 < gamma) (hdt : 0 < dt) (h : StateInv st) (k : ℕ) :
    StateInv ((subStep beta gamma N dt)^[k] st) := by
  induction k with
  | zero => simpa using h
  | succ n ih =>
      rw [Function.iterate_succ_apply']
      exact subStep_stateInv beta gamma N dt _ hN hγ hdt ih

/-- After one sub-step from an invariant state, the sum drifts from `N`
by at most the renormalization threshold `1e-9`. -/
theorem subStep_total_close (beta gamma N dt : ℚ) (st : SIR) (hN : 0 < N)
    (hγ : 0 < gamma) (hdt : 0 < dt) (h : StateInv st) :
    |total (subStep beta gamma N dt st) - N| ≤ 1 / 1000000000 := by
  obtain ⟨⟨hS, hI, hR⟩, hpos⟩ := h
  have hcpos := total_clampStep_eulerStep_pos beta gamma N dt st hγ hdt hS hI hR hpos
  by_cases hfire :
      |total (clampStep (eulerStep beta gamma N dt st)) - N| > 1 / 1000000000
  · rw [subStep, total_renormStep_of_fire N _ hcpos hfire]
    simp
  · rw [subStep, renormStep_eq_of_close N _ hfire]
    exact le_of_not_lt hfire

/-- Every record produced by the time loop carries the loop-constant `N`. -/
theorem cityLoop_N_eq (beta gamma N : ℚ) (tps : List ℚ) :
    ∀ (prevT : ℚ) (st : SIR), ∀ rec ∈ cityLoop beta gamma N prevT st tps,
      rec.N = N := by
  induction tps with
  | nil => intro prevT st rec hrec; simp [cityLoop] at hrec
  | cons t ts ih =>
      intro prevT st rec hrec
      simp only [cityLoop, List.mem_cons] at hrec
      rcases hrec with h | h
      · rw [h]; rfl
      · exact ih t _ rec h

end SIRN

namespace SIRN

/-! ### The claims -/

/-- C1: for every state with `N > 0`, `S, I, R ≥ 0`, `S + I + R = N` and
rates `beta, gamma > 0`, after the integrator's 10 non-stochastic
sub-steps the compartments satisfy `S + I + R = N` within `1e-6`. -/
theorem C1_conservation (beta gamma N dt : ℚ) (st : SIR) (hN : 0 < N)
    (hβ : 0 < beta) (hγ : 0 < gamma) (hdt : 0 < dt) (hS : 0 ≤ st.S)
    (hI : 0 ≤ st.I) (hR : 0 ≤ st.R) (hsum : total st = N) :
    |total ((subStep beta gamma N dt)^[10] st) - N| ≤ 1 / 1000000 := by
  have hinv : StateInv st := ⟨⟨hS, hI, hR⟩, hsum ▸ hN⟩
  have h9 := iterate_stateInv beta gamma N dt st hN hγ hdt hinv 9
  have h10 : (subStep beta gamma N dt)^[10] st =
      subStep beta gamma N dt ((subStep beta gamma N dt)^[9] st) :=
    Function.iterate_succ_apply' _ 9 st
  rw [h10]
  have := subStep_total_close beta gamma N dt _ hN hγ hdt h9
  have hq : (1 : ℚ) / 1000000000 ≤ 1 / 1000000 := by norm_num
  linarith

/-- Witness for C1 at `S = 1, I = 0, R = 0, N = 1`. -/
theorem C1_conservation_witness :
    |total ((subStep 1 1 1 1)^[10] (⟨1, 0, 0⟩ : SIR)) - 1| ≤ 1 / 1000000 :=
  C1_conservation 1 1 1 1 ⟨1, 0, 0⟩ (by norm_num) (by norm_num) (by norm_num)
    (by norm_num) (by norm_num) (by norm_num) (by norm_num)
    (by norm_num [total])

/-- C2: for every state with `N > 0`, `S, I, R ≥ 0` and rates
`beta, gamma > 0`, all three compartments are non-negative after the 10
sub-steps: the clamp floors negatives and the renormalization scales by a
non-negative factor. -/
theorem C2_nonneg (beta gamma N dt : ℚ) (st : SIR) (hN : 0 < N)
    (hβ : 0 < beta) (hγ : 0 < gamma) (hS : 0 ≤ st.S) (hI : 0 ≤ st.I)
    (hR : 0 ≤ st.R) :
    0 ≤ ((subStep beta gamma N dt)^[10] st).S ∧
      0 ≤ ((subStep beta gamma N dt)^[10] st).I ∧
      0 ≤ ((subStep beta gamma N dt)^[10] st).R := by
  have h10 : (subStep beta gamma N dt)^[10] st =
      subStep beta gamma N dt ((subStep beta gamma N dt)^[9] st) :=
    Function.iterate_succ_apply' _ 9 st
  rw [h10]
  exact subStep_stateNonneg beta gamma N dt _ hN.le

/-- Witness for C2 at `S = 1, I = 1, R = 0, N = 2`. -/
theorem C2_nonneg_witness :
    0 ≤ ((subStep 1 1 2 1)^[10] (⟨1, 1, 0⟩ : SIR)).S ∧
      0 ≤ ((subStep 1 1 2 1)^[10] (⟨1, 1, 0⟩ : SIR)).I ∧
      0 ≤ ((subStep 1 1 2 1)^[10] (⟨1, 1, 0⟩ : SIR)).R :=
  C2_nonneg 1 1 2 1 ⟨1, 1, 0⟩ (by norm_num) (by norm_num) (by norm_num)
    (by norm_num) (by norm_num) (by norm_num)

/-- C3 counterexample: at `S = I = R = 0`, `N = 1` (so `N > 0` and
`S, I, R ≥ 0` as the claim requires, with rates `3/10, 1/10 > 0`), the
renormalization branch is taken (`|0 - 1| > 1e-9`) while the divisor
`total = 0` — so the degenerate case CAN occur for such inputs. -/
theorem C3_divisor_counterexample :
    (0 : ℚ) < 1 ∧ (0 : ℚ) < 3 / 10 ∧ (0 : ℚ) < 1 / 10 ∧
      |total (clampStep (eulerStep (3 / 10) (1 / 10) 1 1 ⟨0, 0, 0⟩)) - 1|
        > 1 / 1000000000 ∧
      total (clampStep (eulerStep (3 / 10) (1 / 10) 1 1 ⟨0, 0, 0⟩)) = 0 := by
  have he : eulerStep (3 / 10) (1 / 10) 1 1 (⟨0, 0, 0⟩ : SIR) = ⟨0, 0, 0⟩ :=
    eulerStep_of_I_eq_zero _ _ _ _ _ rfl
  rw [he, clampStep_eq_self _ le_rfl le_rfl le_rfl]
  norm_num [total]

/-- C3 amended: under the additional hypothesis `S + I + R > 0` (true of
every state the generator ever feeds the loop, whose initial states sum to
`N`), the divisor is nonzero at every sub-step at which the
renormalization branch is taken. -/
theorem C3_divisor_safe (beta gamma N dt : ℚ) (st : SIR) (hN : 0 < N)
    (hβ : 0 < beta) (hγ : 0 < gamma) (hdt : 0 < dt) (hS : 0 ≤ st.S)
    (hI : 0 ≤ st.I) (hR : 0 ≤ st.R) (hpos : 0 < total st) :
    ∀ j : ℕ,
      |total (clampStep (eulerStep beta gamma N dt
          ((subStep beta gamma N dt)^[j] st))) - N| > 1 / 1000000000 →
      total (clampStep (eulerStep beta gamma N dt
          ((subStep beta gamma N dt)^[j] st))) ≠ 0 := by
  intro j _
  obtain ⟨⟨h1, h2, h3⟩, h4⟩ :=
    iterate_stateInv beta gamma N dt st hN hγ hdt ⟨⟨hS, hI, hR⟩, hpos⟩ j
  exact (total_clampStep_eulerStep_pos beta gamma N dt _ hγ hdt h1 h2 h3 h4).ne'

/-- Witness for the amended C3 at `S = 1, I = 0, R = 0, N = 2`, sub-step 0,
where the branch fires with divisor `1 ≠ 0`. -/
theorem C3_divisor_safe_witness :
    total (clampStep (eulerStep 1 1 2 1 ((subStep 1 1 2 1)^[0] ⟨1, 0, 0⟩)))
      ≠ 0 :=
  C3_divisor_safe 1 1 2 1 ⟨1, 0, 0⟩ (by norm_num) (by norm_num) (by norm_num)
    (by norm_num) (by norm_num) (by norm_num) (by norm_num)
    (by norm_num [total]) 0
    (by
      have he : eulerStep 1 1 2 1 ((subStep 1 1 2 1)^[0] ⟨1, 0, 0⟩) = ⟨1, 0, 0⟩ :=
        eulerStep_of_I_eq_zero _ _ _ _ _ rfl
      rw [he, clampStep_eq_self _ (by norm_num) le_rfl le_rfl]
      norm_num [total])

/-- C4: the non-stochastic integrator is deterministic — two runs of the
embedded 10-sub-step update on identical states, rates, population and
sub-step size give identical outputs. -/
theorem C4_deterministic (beta gamma N dt : ℚ) (st₁ st₂ : SIR)
    (h : st₁ = st₂) :
    (subStep beta gamma N dt)^[10] st₁ = (subStep beta gamma N dt)^[10] st₂ := by
  rw [h]

/-- Witness for C4 at the scenario state. -/
theorem C4_deterministic_witness :
    (subStep (3 / 10) (1 / 10) 101 1)^[10] (⟨100, 1, 0⟩ : SIR) =
      (subStep (3 / 10) (1 / 10) 101 1)^[10] (⟨100, 1, 0⟩ : SIR) :=
  C4_deterministic (3 / 10) (1 / 10) 101 1 ⟨100, 1, 0⟩ ⟨100, 1, 0⟩ rfl

/-- C5 counterexample: `S = 1, I = 0, R = 0, N = 2` satisfies all the
hypotheses the claim lists (`I = 0`, `S, R ≥ 0`, `N > 0`, rates `> 0`),
yet one sub-step changes the state: the renormalization fires
(`|1 - 2| > 1e-9`) and rescales `S` from `1` to `2`. -/
theorem C5_counterexample :
    (⟨1, 0, 0⟩ : SIR).I = 0 ∧ (0 : ℚ) ≤ 1 ∧ (0 : ℚ) ≤ 0 ∧ (0 : ℚ) < 2 ∧
      (0 : ℚ) < 3 / 10 ∧ (0 : ℚ) < 1 / 10 ∧
      (subStep (3 / 10) (1 / 10) 2 1)^[1] ⟨1, 0, 0⟩ ≠ ⟨1, 0, 0⟩ := by
  refine ⟨rfl, by norm_num, le_rfl, by norm_num, by norm_num, by norm_num, ?_⟩
  rw [Function.iterate_one, subStep,
    eulerStep_of_I_eq_zero _ _ _ _ _ rfl,
    clampStep_eq_self _ (by norm_num) le_rfl le_rfl]
  have hfire : |total (⟨1, 0, 0⟩ : SIR) - 2| > 1 / 1000000000 := by
    norm_num [total]
  simp only [renormStep]
  rw [if_pos hfire]
  simp only [total, SIR.mk.injEq, ne_eq]
  norm_num

/-- C5 amended: if additionally the state is consistent, `S + I + R = N`
(as every `t = 0` state of the generator is), then with `I = 0` the
integrator is the identity for any number of sub-steps: the derivatives
vanish, the clamp is the identity on non-negative values, and the
renormalization does not fire because there is no drift. -/
theorem C5_zero_infected_fixed (beta gamma N dt : ℚ) (st : SIR)
    (hI : st.I = 0) (hS : 0 ≤ st.S) (hR : 0 ≤ st.R) (hN : 0 < N)
    (hβ : 0 < beta) (hγ : 0 < gamma) (hsum : total st = N) :
    ∀ k : ℕ, (subStep beta gamma N dt)^[k] st = st := by
  have hI0 : 0 ≤ st.I := le_of_eq hI.symm
  have hfix : subStep beta gamma N dt st = st := by
    rw [subStep, eulerStep_of_I_eq_zero _ _ _ _ _ hI,
      clampStep_eq_self st hS hI0 hR,
      renormStep_eq_of_close N st (by rw [hsum]; norm_num)]
  intro k
  exact Function.iterate_fixed hfix k

/-- Witness for the amended C5 at `S = 1, I = 0, R = 0, N = 1`, 3 sub-steps. -/
theorem C5_zero_infected_fixed_witness :
    (subStep 1 1 1 1)^[3] (⟨1, 0, 0⟩ : SIR) = ⟨1, 0, 0⟩ :=
  C5_zero_infected_fixed 1 1 1 1 ⟨1, 0, 0⟩ rfl (by norm_num) le_rfl
    (by norm_num) (by norm_num) (by norm_num) (by norm_num [total]) 3

/-- C6: sub-stepping is consistent — iterating the single-sub-step update
`k1` times and then `k2` times, with the same sub-step size, equals
iterating it `k1 + k2` times. -/
theorem C6_substep_consistency (beta gamma N dt : ℚ) (st : SIR) (k1 k2 : ℕ) :
    (subStep beta gamma N dt)^[k2] ((subStep beta gamma N dt)^[k1] st) =
      (subStep beta gamma N dt)^[k1 + k2] st := by
  rw [add_comm k1 k2]
  exact (Function.iterate_add_apply _ k2 k1 st).symm

/-- C8: whenever the renormalization fires with a positive divisor (in the
integrator's context `N > 0`), the rescaled compartments sum exactly to
`N`, and the `S : I` ratio is preserved when `I > 0`. -/
theorem C8_renorm_exact_ratio (a b c N : ℚ) (hN : 0 < N)
    (hpos : 0 < total ⟨a, b, c⟩)
    (hfire : |total ⟨a, b, c⟩ - N| > 1 / 1000000000) :
    total (renormStep N ⟨a, b, c⟩) = N ∧
      (0 < b →
        (renormStep N ⟨a, b, c⟩).S / (renormStep N ⟨a, b, c⟩).I = a / b) := by
  refine ⟨total_renormStep_of_fire N _ hpos hfire, ?_⟩
  intro hb
  have ht : total (⟨a, b, c⟩ : SIR) ≠ 0 := ne_of_gt hpos
  simp only [total] at ht
  simp only [renormStep]
  rw [if_pos hfire]
  simp only [total]
  have hB : b ≠ 0 := ne_of_gt hb
  have hN' : N ≠ 0 := ne_of_gt hN
  field_simp
  ring

/-- Witness for C8 at `S = 1, I = 1, R = 0, N = 3`. -/
theorem C8_renorm_exact_ratio_witness :
    total (renormStep 3 ⟨1, 1, 0⟩) = 3 ∧
      ((0 : ℚ) < 1 →
        (renormStep 3 ⟨1, 1, 0⟩).S / (renormStep 3 ⟨1, 1, 0⟩).I
          = (1 : ℚ) / 1) :=
  C8_renorm_exact_ratio 1 1 0 3 (by norm_num) (by norm_num [total])
    (by norm_num [total])

/-- C9: the population entry `N` of every data point recorded by
`generate_sirn_data` for a city equals the `N` of that city's `t = 0`
record: the integrator never modifies `N`. -/
theorem C9_N_never_modified (pop ii beta gamma : ℚ) (tps : List ℚ) :
    ∀ rec ∈ generateCityData pop ii beta gamma tps,
      ∀ r0 ∈ (generateCityData pop ii beta gamma tps).head?, rec.N = r0.N := by
  intro rec hrec r0 hr0
  simp only [generateCityData, List.head?_cons, Option.mem_def,
    Option.some.injEq] at hr0
  simp only [generateCityData, List.mem_cons] at hrec
  have hr0N : r0.N = pop + ii := by rw [← hr0]; rfl
  rcases hrec with h | h
  · rw [h, hr0N]; rfl
  · rw [cityLoop_N_eq beta gamma (pop + ii) tps 0 _ rec h, hr0N]

/-- Witness for C9: one city with populations `100`, one infected, a single
requested time point `10`. -/
theorem C9_N_never_modified_witness :
    (mkRecord 0 (100 + 1) ⟨100 + 1 - 1, 1, 0⟩).N =
      (mkRecord 0 (100 + 1) ⟨100 + 1 - 1, 1, 0⟩).N :=
  C9_N_never_modified 100 1 (3 / 10) (1 / 10) [10]
    (mkRecord 0 (100 + 1) ⟨100 + 1 - 1, 1, 0⟩)
    (by simp [generateCityData])
    (mkRecord 0 (100 + 1) ⟨100 + 1 - 1, 1, 0⟩)
    (by simp [generateCityData])

/-- C10: the `t = 0` record of a city is `[P, i, 0, P + i]` where `P` is
the supplied population and `i` the initial infected count: `N` is the
population plus the infected count, and `S` at time 0 is the population
itself. -/
theorem C10_initial_record (pop ii beta gamma : ℚ) (tps : List ℚ) :
    (generateCityData pop ii beta gamma tps).head? =
      some { t := 0, S := pop, I := ii, R := 0, N := pop + ii } := by
  simp [generateCityData, mkRecord, Record.mk.injEq]

/-- C7: the reference scenario `S=100, I=1, R=0, N=101, beta=3/10,
gamma=1/10`, integrating over one unit interval per sub-step for 10
sub-steps: the final `S` is below 100, the final `I` is above 1, and the
compartments sum to 101 within `1e-6` (here: exactly).  The proof runs
the ten sub-steps on exact rationals; no clamp or renormalization fires
along the way. -/
theorem C7_reference_scenario :
    ((subStep (3/10) (1/10) 101 1)^[10] (⟨100, 1, 0⟩ : SIR)).S < 100 ∧
      1 < ((subStep (3/10) (1/10) 101 1)^[10] (⟨100, 1, 0⟩ : SIR)).I ∧
      |total ((subStep (3/10) (1/10) 101 1)^[10] (⟨100, 1, 0⟩ : SIR)) - 101|
        ≤ 1 / 1000000 := by
  have h1 : subStep (3/10) (1/10) 101 1 (⟨100, 1, 0⟩ : SIR) = (⟨10070/101, 1209/1010, 1/10⟩ : SIR) :=
    subStep_eval _ _ _ _ _ _ _ _ _ _ (by norm_num) (by norm_num)
      (by norm_num) (by norm_num) (by norm_num) (by norm_num) (by norm_num)
  have h2 : subStep (3/10) (1/10) 101 1 (⟨10070/101, 1209/1010, 1/10⟩ : SIR) = (⟨1023588311/10303010, 147520971/103030100, 2219/10100⟩ : SIR) :=
    subStep_eval _ _ _ _ _ _ _ _ _ _ (by norm_num) (by norm_num)
      (by norm_num) (by norm_num) (by norm_num) (by norm_num) (by norm_num)
  have h3 : subStep (3/10) (1/10) 101 1 (⟨1023588311/10303010, 147520971/103030100, 2219/10100⟩ : SIR) = (⟨106062007876943801057/1072135352107010000, 1834600450464153333/1072135352107010000, 373881161/1030301000⟩ : SIR) :=
    subStep_eval _ _ _ _ _ _ _ _ _ _ (by norm_num) (by norm_num)
      (by norm_num) (by norm_num) (by norm_num) (by norm_num) (by norm_num)
  have h4 : subStep (3/10) (1/10) 101 1 (⟨106062007876943801057/1072135352107010000, 1834600450464153333/1072135352107010000, 373881161/1030301000⟩ : SIR) = (⟨114266212219642325366796272262967779281057/1160968955369998535166956051501000000000, 2371692682224585379371161597418262388943/1160968955369998535166956051501000000000, 5725222804464709433/10721353521070100000⟩ : SIR) :=
    subStep_eval _ _ _ _ _ _ _ _ _ _ (by norm_num) (by norm_num)
      (by norm_num) (by norm_num) (by norm_num) (by norm_num) (by norm_num)
  have h5 : subStep (3/10) (1/10) 101 1 (⟨114266212219642325366796272262967779281057/1160968955369998535166956051501000000000, 2371692682224585379371161597418262388943/1160968955369998535166956051501000000000, 5725222804464709433/10721353521070100000⟩ : SIR) = (⟨133173107267031417615104047517828184940902728145160171651438622038050244250461541747/1361327404486234707091377574822875292036057259454832609996531010000000000000000000, 3315909590389062225422509519348120989354781456088931810729729350190158006538458253/1361327404486234707091377574822875292036057259454832609996531010000000000000000000, 8571288587253998436322435009567845688943/11609689553699985351669560515010000000000⟩ : SIR) :=
    subStep_eval _ _ _ _ _ _ _ _ _ _ (by norm_num) (by norm_num)
      (by norm_num) (by norm_num) (by norm_num) (by norm_num) (by norm_num)
  have h6 : subStep (3/10) (1/10) 101 1 (⟨133173107267031417615104047517828184940902728145160171651438622038050244250461541747/1361327404486234707091377574822875292036057259454832609996531010000000000000000000, 3315909590389062225422509519348120989354781456088931810729729350190158006538458253/1361327404486234707091377574822875292036057259454832609996531010000000000000000000, 8571288587253998436322435009567845688943/11609689553699985351669560515010000000000⟩ : SIR) = (⟨181780352517120766964228642019541682872864369590016231320045205245088734767635456774900023448811588264492860863689462120092166615415840098969466995139133721915671436027/1871744425227280764108387390213270096974422636610296077942182134014987805950092868299593420762355002160204257052969076230536301000000000000000000000000000000000000000, 5428031034647560765740542438388733908418889385169293698822002745590024465865116640839588319738449792026007519952136680296946651788536589876335526330866278084328563973/1871744425227280764108387390213270096974422636610296077942182134014987805950092868299593420762355002160204257052969076230536301000000000000000000000000000000000000000, 13366419547281317982448289718689106643197517492978833285542535567786135436538458253/13613274044862347070913775748228752920360572594548326099965310100000000000000000000⟩ : SIR) :=
    subStep_eval _ _ _ _ _ _ _ _ _ _ (by norm_num) (by norm_num)
      (by norm_num) (by norm_num) (by norm_num) (by norm_num) (by norm_num)
  have h7 : subStep (3/10) (1/10) 101 1 (⟨181780352517120766964228642019541682872864369590016231320045205245088734767635456774900023448811588264492860863689462120092166615415840098969466995139133721915671436027/1871744425227280764108387390213270096974422636610296077942182134014987805950092868299593420762355002160204257052969076230536301000000000000000000000000000000000000000, 5428031034647560765740542438388733908418889385169293698822002745590024465865116640839588319738449792026007519952136680296946651788536589876335526330866278084328563973/1871744425227280764108387390213270096974422636610296077942182134014987805950092868299593420762355002160204257052969076230536301000000000000000000000000000000000000000, 13366419547281317982448289718689106643197517492978833285542535567786135436538458253/13613274044862347070913775748228752920360572594548326099965310100000000000000000000⟩ : SIR) = (⟨340688696869312080846331525258767372359572596858900104707788384548856070394226171389019148215932687665810947472085099183326246084029485550250130655428504233772762532660321327835677388890172646130822385171165462573065800162589108862810551462268163234229031994519688342114974279734341041881411001645646310925827546353392335069245060634187/3538461465303097667623993781802444845423045942881419477708231435577992649485885425927383930074692179007061146767796588938809996237241311887911844339023211542656697697074907394866356253067039620869443908735722171817039829896182509814910547502765459550227010000000000000000000000000000000000000000000000000000000000000000000000000000000, 12195465312473892927593500025128000629984206153763535416556288133560252870656291854684165069122395082157592829595472133374747335328775369210413344728459472122137611999148383393399280574801347632117462532094352122480482549989530603671217431182893396189861549830998458821175528889886570465883327181353689074172453646607664930754939365813/3538461465303097667623993781802444845423045942881419477708231435577992649485885425927383930074692179007061146767796588938809996237241311887911844339023211542656697697074907394866356253067039620869443908735722171817039829896182509814910547502765459550227010000000000000000000000000000000000000000000000000000000000000000000000000000000, 23806064996517855215519961974487364039753162609713082231753878193940116140453179466032825604216621408643623307034915669247477989744769701418310311630866278084328563973/18717444252272807641083873902132700969744226366102960779421821340149878059500928682995934207623550021602042570529690762305363010000000000000000000000000000000000000000⟩ : SIR) :=
    subStep_eval _ _ _ _ _ _ _ _ _ _ (by norm_num) (by norm_num)
      (by norm_num) (by norm_num) (by norm_num) (by norm_num) (by norm_num)
  have h8 : subStep (3/10) (1/10) 101 1 (⟨340688696869312080846331525258767372359572596858900104707788384548856070394226171389019148215932687665810947472085099183326246084029485550250130655428504233772762532660321327835677388890172646130822385171165462573065800162589108862810551462268163234229031994519688342114974279734341041881411001645646310925827546353392335069245060634187/3538461465303097667623993781802444845423045942881419477708231435577992649485885425927383930074692179007061146767796588938809996237241311887911844339023211542656697697074907394866356253067039620869443908735722171817039829896182509814910547502765459550227010000000000000000000000000000000000000000000000000000000000000000000000000000000, 12195465312473892927593500025128000629984206153763535416556288133560252870656291854684165069122395082157592829595472133374747335328775369210413344728459472122137611999148383393399280574801347632117462532094352122480482549989530603671217431182893396189861549830998458821175528889886570465883327181353689074172453646607664930754939365813/3538461465303097667623993781802444845423045942881419477708231435577992649485885425927383930074692179007061146767796588938809996237241311887911844339023211542656697697074907394866356253067039620869443908735722171817039829896182509814910547502765459550227010000000000000000000000000000000000000000000000000000000000000000000000000000000, 23806064996517855215519961974487364039753162609713082231753878193940116140453179466032825604216621408643623307034915669247477989744769701418310311630866278084328563973/18717444252272807641083873902132700969744226366102960779421821340149878059500928682995934207623550021602042570529690762305363010000000000000000000000000000000000000000⟩ : SIR) = (⟨1205104392236687892096397397324180144362856785469886766699280368229530250028128781964934440478549132318684159995503787126575742142901464777324519907692596136709876051115844918108365158607749197395333634272938242846940295714861501182789185252955158567271338244907828760193040960430080863376386139855503694916898573713009588077359626475652110013426082931982023575140129923842660530841045742142589757384092815859630041642607429286488161593709205002954308222279617038059837662746737929387604414256641436597214537711661134480223225895063996105498314709781811942478426285950717783743709696113467178062948976890192807855865916050577333702426214324040493388183806566702403899452907/12645916636849294509720924692821586101647660636421275693580318049625638449953189118029747440474663314924728885072231981498509648403451781923997873964174987594955661901372937250344822843217712999347391834882995187941242000564238998231375865225375941596831127063399301891269287632364528144120901837695096045331994414205724090236540603323758284587934540576542176114680048377600188597713108381605768096471968298769179363298715774737464340137494217462646335319390030222359458049851717523750910332890694209391958875501000000000000000000000000000000000000000000000000000000000000000000000000000000000000000000000000000000000000000000000000000000000000000000000000000000000000000, 51690815865268074500139010894896465561877617887583484080613288739347684500458901219568499028129494266685773827153491570952635148180147440221583745292512213890619089530662425164848736271099327761886622915371278407127113109852398469954202978057625641790254605130680920226597931907551420570733250816728466151830129034489337578856170146824202343039022754922007099633013977472302651999141530234801186663624710223991633210681045487667542837171706373917191014277269794349778984517224712203194389819948517800684474234534980297009828273141825780461045628475521385599504688595299420615082805778628699807051023109807192144134083949422666297573785675959506611816193433297596100547093/12645916636849294509720924692821586101647660636421275693580318049625638449953189118029747440474663314924728885072231981498509648403451781923997873964174987594955661901372937250344822843217712999347391834882995187941242000564238998231375865225375941596831127063399301891269287632364528144120901837695096045331994414205724090236540603323758284587934540576542176114680048377600188597713108381605768096471968298769179363298715774737464340137494217462646335319390030222359458049851717523750910332890694209391958875501000000000000000000000000000000000000000000000000000000000000000000000000000000000000000000000000000000000000000000000000000000000000000000000000000000000000000, 57199923450742799488576966806643564611692578337360806658423311243169596202575939604308801594010668399603948048264313794562909341359891181395936125572266071256400839450107739917652401522771427080857333322575598702227883619347470851913181474465441237730206206324130449459677442647610446992940038911353689074172453646607664930754939365813/35384614653030976676239937818024448454230459428814194777082314355779926494858854259273839300746921790070611467677965889388099962372413118879118443390232115426566976970749073948663562530670396208694439087357221718170398298961825098149105475027654595502270100000000000000000000000000000000000000000000000000000000000000000000000000000000⟩ : SIR) :=
    subStep_eval _ _ _ _ _ _ _ _ _ _ (by norm_num) (by norm_num)
      (by norm_num) (by norm_num) (by norm_num) (by norm_num) (by norm_num)
  have h9 : subStep (3/10) (1/10) 101 1 (⟨1205104392236687892096397397324180144362856785469886766699280368229530250028128781964934440478549132318684159995503787126575742142901464777324519907692596136709876051115844918108365158607749197395333634272938242846940295714861501182789185252955158567271338244907828760193040960430080863376386139855503694916898573713009588077359626475652110013426082931982023575140129923842660530841045742142589757384092815859630041642607429286488161593709205002954308222279617038059837662746737929387604414256641436597214537711661134480223225895063996105498314709781811942478426285950717783743709696113467178062948976890192807855865916050577333702426214324040493388183806566702403899452907/12645916636849294509720924692821586101647660636421275693580318049625638449953189118029747440474663314924728885072231981498509648403451781923997873964174987594955661901372937250344822843217712999347391834882995187941242000564238998231375865225375941596831127063399301891269287632364528144120901837695096045331994414205724090236540603323758284587934540576542176114680048377600188597713108381605768096471968298769179363298715774737464340137494217462646335319390030222359458049851717523750910332890694209391958875501000000000000000000000000000000000000000000000000000000000000000000000000000000000000000000000000000000000000000000000000000000000000000000000000000000000000000, 51690815865268074500139010894896465561877617887583484080613288739347684500458901219568499028129494266685773827153491570952635148180147440221583745292512213890619089530662425164848736271099327761886622915371278407127113109852398469954202978057625641790254605130680920226597931907551420570733250816728466151830129034489337578856170146824202343039022754922007099633013977472302651999141530234801186663624710223991633210681045487667542837171706373917191014277269794349778984517224712203194389819948517800684474234534980297009828273141825780461045628475521385599504688595299420615082805778628699807051023109807192144134083949422666297573785675959506611816193433297596100547093/12645916636849294509720924692821586101647660636421275693580318049625638449953189118029747440474663314924728885072231981498509648403451781923997873964174987594955661901372937250344822843217712999347391834882995187941242000564238998231375865225375941596831127063399301891269287632364528144120901837695096045331994414205724090236540603323758284587934540576542176114680048377600188597713108381605768096471968298769179363298715774737464340137494217462646335319390030222359458049851717523750910332890694209391958875501000000000000000000000000000000000000000000000000000000000000000000000000000000000000000000000000000000000000000000000000000000000000000000000000000000000000000, 57199923450742799488576966806643564611692578337360806658423311243169596202575939604308801594010668399603948048264313794562909341359891181395936125572266071256400839450107739917652401522771427080857333322575598702227883619347470851913181474465441237730206206324130449459677442647610446992940038911353689074172453646607664930754939365813/35384614653030976676239937818024448454230459428814194777082314355779926494858854259273839300746921790070611467677965889388099962372413118879118443390232115426566976970749073948663562530670396208694439087357221718170398298961825098149105475027654595502270100000000000000000000000000000000000000000000000000000000000000000000000000000000⟩ : SIR) = (⟨15205167692042752818994301356728365502993255477144790636392807094534679995196600055265968184603256911482510070285724606843018423116416967207065295549238077719578397443194204027655624476574743659230485876491606340294547772256159268126127821189364875206871526848381625863259138427826518386092718781339880409185043051477497941848829857662953451641543052768571409102544109605136201233844032383094849427256441776606973319600343171611894716800236767598069392247452892760545035888267124664173613581112653797913736744880762247476692666981259961697113334342286603924149427380907025051232346287149631730743134452536571790214827146088449602270342093650322446441536445409307224114715018167951045444015973765116589881177789577189468335470549856776958932104727280640608740431972801085963769094847524537079122778663691361043843591529873532400710146355068924142314330514218273196187741489930776877267800330429902906714603700604818756548854082531308813911204378918000674493926060144191902071703047729571214892897978908622672532341862430714761775311234443738362446871687596353960458059006343949503066529186236747900118410962244492109201215284836964942495293070405870514151893878341627363517505016076076594600075019162297564329589889714410851141431413055364379435256356296671236659368878394608291403889616361069164696747916852727541066974298400224120459721732251947/161518399662003189351761990862201011540746745096559605556606621954241549466725444990394379613473407118328849416451674166664562739819223563641444291528774456715765424477471209965686947066209343833657781759656775422705711672723886987549820855720524494200418224822024973924385531619238357563044029129137713165757056269341136810737708262549496234233493469395311918415972686612387098135550412153280263723561450971937084457125248121070975390243706668507954217704510073250175708863174083851771761062409549142446997246451312110649513372997224434717713749345305477951546627036380847825015845703138898484079745106165677841351119549925373258646196390161054694208511626716567644490238365211583789892963207085373508704043831502889748662986882310173261022706460842293405667679980616108804006018480639419493953946254656244437075044019824541126458895893638295432995740853091865288306851236513267089100668968667043325789744860181787418846897762416016600159904123612978894945884119618031282799036858060281868329531553317091278577028502181011010000000000000000000000000000000000000000000000000000000000000000000000000000000000000000000000000000000000000000000000000000000000000000000000000000000000000000000000000000000000000000000000000000000000000000000000000000000000000000000000000000000000000000000000000000000000000000000000000000000000000000000000000000000, 781071560938119747927053867196200091531849480100361710137513537979197099267191884449711026938191652579652673258703808678390804334837713675713531814283309525266829003202712294140332922854897323845782311616166214578721325304816823882446294194609940324950540832202350572404939135840052122558675965546278881712443226965095452422259706757736221196165244811925209286994182164277610245144821323743877641596233860229206113941332726946467113308771326148131279351133081279808630160729332124679663865780065807414051998832706586178575911549316373348864211374604181500521513595491850474949822860342049660215047916059877424666438088215542329145660882286803893762331846465965623662451517885978652050942040549318150830839909772709725053982952055145102239269374579443846524058694734336179802360115555702890756342574985002872429183962281970459290887681524375071795037223537693987423735430608662543801737957749878654993300438718129860691740930657118536660766167826380297646214772741232946238502926449077925752079448799647616258509093784905765100208727149016351269810835243916048564865282612297605093986872699592472311066263758258037766545720178118538695310229413103732672667411519624477605326563302595512399924980837702435670410110285589148858568586944635620564743643703328763340631121605391708596110383638930835303252083147272458933025701599775879540278267748053/161518399662003189351761990862201011540746745096559605556606621954241549466725444990394379613473407118328849416451674166664562739819223563641444291528774456715765424477471209965686947066209343833657781759656775422705711672723886987549820855720524494200418224822024973924385531619238357563044029129137713165757056269341136810737708262549496234233493469395311918415972686612387098135550412153280263723561450971937084457125248121070975390243706668507954217704510073250175708863174083851771761062409549142446997246451312110649513372997224434717713749345305477951546627036380847825015845703138898484079745106165677841351119549925373258646196390161054694208511626716567644490238365211583789892963207085373508704043831502889748662986882310173261022706460842293405667679980616108804006018480639419493953946254656244437075044019824541126458895893638295432995740853091865288306851236513267089100668968667043325789744860181787418846897762416016600159904123612978894945884119618031282799036858060281868329531553317091278577028502181011010000000000000000000000000000000000000000000000000000000000000000000000000000000000000000000000000000000000000000000000000000000000000000000000000000000000000000000000000000000000000000000000000000000000000000000000000000000000000000000000000000000000000000000000000000000000000000000000000000000000000000000000000000000, 256114538063495863352908868453932328978670827098369426797797949172463173667303078584584018840753176486962609523535005909163607124850325007998399919258166178790886203452255615280980859132504205530549804264101205687107445432594790156209944545559484563973764438778879026212189517219402006661650200166453861249857459907281412155604213279056946212201851868189298227728423825698861307287508271882717523623137431144646041609499230230949482067231752242474997321292331994836665142227832995283625785273650125307572819028583832524679286591083606920867442245902188104820194943135127377027157786857669921107051023109807192144134083949422666297573785675959506611816193433297596100547093/126459166368492945097209246928215861016476606364212756935803180496256384499531891180297474404746633149247288850722319814985096484034517819239978739641749875949556619013729372503448228432177129993473918348829951879412420005642389982313758652253759415968311270633993018912692876323645281441209018376950960453319944142057240902365406033237582845879345405765421761146800483776001885977131083816057680964719682987691793632987157747374643401374942174626463353193900302223594580498517175237509103328906942093919588755010000000000000000000000000000000000000000000000000000000000000000000000000000000000000000000000000000000000000000000000000000000000000000000000000000000000000000⟩ : SIR) :=
    subStep_eval _ _ _ _ _ _ _ _ _ _ (by norm_num) (by norm_num)
      (by norm_num) (by norm_num) (by norm_num) (by norm_num) (by norm_num)
  have h10 : subStep (3/10) (1/10) 101 1 (⟨15205167692042752818994301356728365502993255477144790636392807094534679995196600055265968184603256911482510070285724606843018423116416967207065295549238077719578397443194204027655624476574743659230485876491606340294547772256159268126127821189364875206871526848381625863259138427826518386092718781339880409185043051477497941848829857662953451641543052768571409102544109605136201233844032383094849427256441776606973319600343171611894716800236767598069392247452892760545035888267124664173613581112653797913736744880762247476692666981259961697113334342286603924149427380907025051232346287149631730743134452536571790214827146088449602270342093650322446441536445409307224114715018167951045444015973765116589881177789577189468335470549856776958932104727280640608740431972801085963769094847524537079122778663691361043843591529873532400710146355068924142314330514218273196187741489930776877267800330429902906714603700604818756548854082531308813911204378918000674493926060144191902071703047729571214892897978908622672532341862430714761775311234443738362446871687596353960458059006343949503066529186236747900118410962244492109201215284836964942495293070405870514151893878341627363517505016076076594600075019162297564329589889714410851141431413055364379435256356296671236659368878394608291403889616361069164696747916852727541066974298400224120459721732251947/161518399662003189351761990862201011540746745096559605556606621954241549466725444990394379613473407118328849416451674166664562739819223563641444291528774456715765424477471209965686947066209343833657781759656775422705711672723886987549820855720524494200418224822024973924385531619238357563044029129137713165757056269341136810737708262549496234233493469395311918415972686612387098135550412153280263723561450971937084457125248121070975390243706668507954217704510073250175708863174083851771761062409549142446997246451312110649513372997224434717713749345305477951546627036380847825015845703138898484079745106165677841351119549925373258646196390161054694208511626716567644490238365211583789892963207085373508704043831502889748662986882310173261022706460842293405667679980616108804006018480639419493953946254656244437075044019824541126458895893638295432995740853091865288306851236513267089100668968667043325789744860181787418846897762416016600159904123612978894945884119618031282799036858060281868329531553317091278577028502181011010000000000000000000000000000000000000000000000000000000000000000000000000000000000000000000000000000000000000000000000000000000000000000000000000000000000000000000000000000000000000000000000000000000000000000000000000000000000000000000000000000000000000000000000000000000000000000000000000000000000000000000000000000000, 781071560938119747927053867196200091531849480100361710137513537979197099267191884449711026938191652579652673258703808678390804334837713675713531814283309525266829003202712294140332922854897323845782311616166214578721325304816823882446294194609940324950540832202350572404939135840052122558675965546278881712443226965095452422259706757736221196165244811925209286994182164277610245144821323743877641596233860229206113941332726946467113308771326148131279351133081279808630160729332124679663865780065807414051998832706586178575911549316373348864211374604181500521513595491850474949822860342049660215047916059877424666438088215542329145660882286803893762331846465965623662451517885978652050942040549318150830839909772709725053982952055145102239269374579443846524058694734336179802360115555702890756342574985002872429183962281970459290887681524375071795037223537693987423735430608662543801737957749878654993300438718129860691740930657118536660766167826380297646214772741232946238502926449077925752079448799647616258509093784905765100208727149016351269810835243916048564865282612297605093986872699592472311066263758258037766545720178118538695310229413103732672667411519624477605326563302595512399924980837702435670410110285589148858568586944635620564743643703328763340631121605391708596110383638930835303252083147272458933025701599775879540278267748053/161518399662003189351761990862201011540746745096559605556606621954241549466725444990394379613473407118328849416451674166664562739819223563641444291528774456715765424477471209965686947066209343833657781759656775422705711672723886987549820855720524494200418224822024973924385531619238357563044029129137713165757056269341136810737708262549496234233493469395311918415972686612387098135550412153280263723561450971937084457125248121070975390243706668507954217704510073250175708863174083851771761062409549142446997246451312110649513372997224434717713749345305477951546627036380847825015845703138898484079745106165677841351119549925373258646196390161054694208511626716567644490238365211583789892963207085373508704043831502889748662986882310173261022706460842293405667679980616108804006018480639419493953946254656244437075044019824541126458895893638295432995740853091865288306851236513267089100668968667043325789744860181787418846897762416016600159904123612978894945884119618031282799036858060281868329531553317091278577028502181011010000000000000000000000000000000000000000000000000000000000000000000000000000000000000000000000000000000000000000000000000000000000000000000000000000000000000000000000000000000000000000000000000000000000000000000000000000000000000000000000000000000000000000000000000000000000000000000000000000000000000000000000000000000, 256114538063495863352908868453932328978670827098369426797797949172463173667303078584584018840753176486962609523535005909163607124850325007998399919258166178790886203452255615280980859132504205530549804264101205687107445432594790156209944545559484563973764438778879026212189517219402006661650200166453861249857459907281412155604213279056946212201851868189298227728423825698861307287508271882717523623137431144646041609499230230949482067231752242474997321292331994836665142227832995283625785273650125307572819028583832524679286591083606920867442245902188104820194943135127377027157786857669921107051023109807192144134083949422666297573785675959506611816193433297596100547093/126459166368492945097209246928215861016476606364212756935803180496256384499531891180297474404746633149247288850722319814985096484034517819239978739641749875949556619013729372503448228432177129993473918348829951879412420005642389982313758652253759415968311270633993018912692876323645281441209018376950960453319944142057240902365406033237582845879345405765421761146800483776001885977131083816057680964719682987691793632987157747374643401374942174626463353193900302223594580498517175237509103328906942093919588755010000000000000000000000000000000000000000000000000000000000000000000000000000000000000000000000000000000000000000000000000000000000000000000000000000000000000000⟩ : SIR) = (⟨2444844523542602279613320359597585883950247278828496219735500621762432198996185263410452621929553478653371792004499502160279723517873285940649413153638352260990680636277756731127981043946446987286384347616430299040977274615735375024156661794447959961252953527215677307771513867948695170698391422321654208296089145709008733840889180952101952400902524349865050294993280358717768983277391289570784693727379701322349636826579831217410087340779920816152718036728448527591564350050303766267016018935641049044866354378045267641406558098952824973557607910746153305429842172417561624484880530142462409493107594919099988765175112073909532556204831304397846284165785961221123544246519873974173966378673004415574343187028249317960409307879985482344689506843123972923633528003851176796484102615374591066919588145652496628009772147804501600993473239440265214219825480639359397220127434996702586972291638674708653994726746248983691448067170510396912832096605932406832984673820142251519837424860908361667081277702258464607433861018273715210264102788661759418537235386181049918641043436273388174399713967620018566197890202941598950811243667918727724710160209568586256306297720475002432538871504738540968096406680110499121798821278838729319783275485995475548427086327885787456903035869954618840901224832729154903775581549635022450253583416249584395994759693801634175088225162796206408107567003857951755891652751748204331810199249264436970943788025317813550125696547374308139615885344492751748854671991909550009495346929784684413433799785836569468838178127714600091933368129495696403019870514655941605413623368286181236947868884220732207899868181689359689891997337326729977828373050227219398681855725769137052080692664930082494237460062868352769979197949469493884576755130931015368920756997125785720851201721663629912092724516836006401677463572150649889330058061903727237733287026233115301990983895209388517388250941034361602402468002169973724459768943459049505599906802494578982281524768340774500564080397888992510789334343680973002445017576297287496523472429313805374197657347760990906933950519965452441991502601249521168947324347220598466199624097901187904409888004387094170628862554557168500133719300262869575845690503700439270203536102614829027465023415562369531685046567694234226798122207670614543469419514393717457727701978930554381534009148102017071744412533485935548618745494735092869619168337930808085208671561451168964877052224866079079512663797789695639202629080236640332875963318898847897939182404289071050919586458396997998111364354345022418883060068105480258500589744158220329812193472425704211304364224380811869492164940412081018618227275762216958422772788184744211795734851484032539463655872427/26349075363668337912151403017116869709389753995036844139579991311070801098967120793939336284387623620652247110502677442407391756207396454810497310560852399066600544696082375274853153521358827435714078832396958835770190368413993095279385723660386326503873930998792850533183629217530098333162517340861709808912104207566843868641353342367125986333371658988076800612646058849272795637200636416915248791130204162154912933741487904271946415001088435279750199977488151694110884693987495952308810562195338939791882166706634041129222250135106973659659462674746572927541832668777967909226198797195526974155475302303065891323180805703384841687049264451323842688778367007718464655355412772661421452092521526345577738990612535648941226595662676278374520514100746398273784995478833338651010110345233603339421883552434585600934847854610694799725885308575863141125705962472332809420656519378060877861537459431137001324387617327967484700536797805506329485931499936426687111282377665835317119324149354494933100179357184058207952499999832848913911191327150468844156397710980217904385129082980248633908887604689946004451249168682100453560963140507455833901183881086783040818918627702235398882912155509806849645725268218088840239010404968451212860302543917998075024808587422483337049919728928111286392512878542711154511027511990654195113424849855207599848189271955443886760741949513286790583469273190032210530102745934498856999571924073168305732679414334897349151327790660215681195627111595039849335535080919469934325040600869870503365033870814996339597613201232539331649666163225444540126585188967830174773210564769619928429026268014686307899707846959402525682784508455801414355840132019401943029170888339494102431165616715942842123282241765532849211855867229444708295445415865621492311569424003532988732226582602513233590652652932919594311150890555120611148461002348657951044653343947022955715043279399847088272872793031977636129211399580460740271860873858912862668837809199383670976512545754831037751670397017800204448415284864995874653781730208354613803622815998632301000000000000000000000000000000000000000000000000000000000000000000000000000000000000000000000000000000000000000000000000000000000000000000000000000000000000000000000000000000000000000000000000000000000000000000000000000000000000000000000000000000000000000000000000000000000000000000000000000000000000000000000000000000000000000000000000000000000000000000000000000000000000000000000000000000000000000000000000000000000000000000000000000000000000000000000000000000000000000000000000000000000000000000000000000000000000000000000000000000000000000000000000000000000000000000000000000000000000000000000000000000000000000000000000000000000000000, 150306074737352266765908254523257084783974250900593171696867710578098208636303351209073763134904894474315029854636491202321992578541004208878633987038535372195238458757262262550659998329290218686464363057725456148754574064623260311742912166830415867834735471271192437212377729098411238746319757277061853750573943883813533812125480591958905836557924112632899174308950076223648300021686346026663143594615587482563209669200168410359680133503085588792522153597474615855399421964087840508689952321152647893566315391767636871553598040499320610960197515318685156650597742514994823710742581652286164983923933977254588737260333335863285855010209151666130417656899472302085244157611804580280726556291002688960309805968004264021356093514686890004512279052469948378439687451295713131490329400105230352647388126315903830192420149148206586075585731939526151799630587427307806906097919304915999734633416240019220791675437378226154839488871779532649390405761482101201438234372455135585484921834766066870297295791301483857155944979714699896476503625725270519730921314699583063376640198264292027884437134075623272094912429045762047099019055376290718399606736509311951755959037993693683997446640307075515134942274969040906513798703263281179980234350735508983435848792752086577264348308696971044883258376660429498263311453267860605759941420310955507173044377848409382056458351811463427837846258206324724626429345706270118860510455677572594365154655034847580742557937024961168417862150822014995662003880379966043667574619282426840614756057955813911762393625808778809741120401153572183864544681387995803212210958962895532742501445750058106033008673149209603250545650241097354485602742459393995667400887428735595546206080331465664348834764955501035505762022420450466465251972540523874894150171032127256981866135971447691649210493822381741776705073361756935489999892606201192170418378859713480999127717650527396984118877190562114864035994571636716642136258647253870616562440821811887498713967029741428058653387549220571297957427927822453157457798533098095292893788095318507138036644112858334000124083682691610568631987534501390492621858087936927843824868964469993507369575053599447081103922127963928553516010386241587381126901908193771305044578178695985491174841360257390986939419900402850917935036573680623798468311721588750406585362107138583317633551058397610453310050639774475247048623859490600380831662069191914791328438548831035122947775133920920487336202210304360797370919763359667124036681101152102060817595710928949080413541603002001888635645654977581116939931894519741499410255841779670187806527574295788695635775619188130507835059587918981381772724237783041577227211815255788204265148515967460536344127573/26349075363668337912151403017116869709389753995036844139579991311070801098967120793939336284387623620652247110502677442407391756207396454810497310560852399066600544696082375274853153521358827435714078832396958835770190368413993095279385723660386326503873930998792850533183629217530098333162517340861709808912104207566843868641353342367125986333371658988076800612646058849272795637200636416915248791130204162154912933741487904271946415001088435279750199977488151694110884693987495952308810562195338939791882166706634041129222250135106973659659462674746572927541832668777967909226198797195526974155475302303065891323180805703384841687049264451323842688778367007718464655355412772661421452092521526345577738990612535648941226595662676278374520514100746398273784995478833338651010110345233603339421883552434585600934847854610694799725885308575863141125705962472332809420656519378060877861537459431137001324387617327967484700536797805506329485931499936426687111282377665835317119324149354494933100179357184058207952499999832848913911191327150468844156397710980217904385129082980248633908887604689946004451249168682100453560963140507455833901183881086783040818918627702235398882912155509806849645725268218088840239010404968451212860302543917998075024808587422483337049919728928111286392512878542711154511027511990654195113424849855207599848189271955443886760741949513286790583469273190032210530102745934498856999571924073168305732679414334897349151327790660215681195627111595039849335535080919469934325040600869870503365033870814996339597613201232539331649666163225444540126585188967830174773210564769619928429026268014686307899707846959402525682784508455801414355840132019401943029170888339494102431165616715942842123282241765532849211855867229444708295445415865621492311569424003532988732226582602513233590652652932919594311150890555120611148461002348657951044653343947022955715043279399847088272872793031977636129211399580460740271860873858912862668837809199383670976512545754831037751670397017800204448415284864995874653781730208354613803622815998632301000000000000000000000000000000000000000000000000000000000000000000000000000000000000000000000000000000000000000000000000000000000000000000000000000000000000000000000000000000000000000000000000000000000000000000000000000000000000000000000000000000000000000000000000000000000000000000000000000000000000000000000000000000000000000000000000000000000000000000000000000000000000000000000000000000000000000000000000000000000000000000000000000000000000000000000000000000000000000000000000000000000000000000000000000000000000000000000000000000000000000000000000000000000000000000000000000000000000000000000000000000000000000000000000000000000000000, 4052262689752615323993112398773565802435012455174039857006995386624391116021971927591242321131847201470163148430610561795506897039706704125783992623131638359737643261479471141524575465429924765077460007791783842778799139146181761222024204632591524149152271096607809879393550434605088174719197917113776270152207274573709688556449407725830689394910673096224062991743677948650464572162200530169673313866542973523867080221074343644533956364834123879158323246828514858949435622570588926436368069886514388007631780613843481381898632970749701953979641044454859984874197138247751516394135545595523219553766787322719895618416490600250006218289476978205732874245670696970466825926906210381304893254736561197987501747186091636437309064684069199484158461881429315633603508799802384636133889150199116880858615905424170591147223500749728397004032168166061318027058107600806092498885974092668093098030734305776796961901354272248981321157538813021797102563865231679260140149404701196058763470411303471206315132040567206919712798318831521616445009111221469214102985606841215958335622393049826523488826283336188748016294003730756568088935670027283726789277231223361264427054512907106066377010769515874442399924980837702435670410110285589148858568586944635620564743643703328763340631121605391708596110383638930835303252083147272458933025701599775879540278267748053/1615183996620031893517619908622010115407467450965596055566066219542415494667254449903943796134734071183288494164516741666645627398192235636414442915287744567157654244774712099656869470662093438336577817596567754227057116727238869875498208557205244942004182248220249739243855316192383575630440291291377131657570562693411368107377082625494962342334934693953119184159726866123870981355504121532802637235614509719370844571252481210709753902437066685079542177045100732501757088631740838517717610624095491424469972464513121106495133729972244347177137493453054779515466270363808478250158457031388984840797451061656778413511195499253732586461963901610546942085116267165676444902383652115837898929632070853735087040438315028897486629868823101732610227064608422934056676799806161088040060184806394194939539462546562444370750440198245411264588958936382954329957408530918652883068512365132670891006689686670433257897448601817874188468977624160166001599041236129788949458841196180312827990368580602818683295315533170912785770285021810110100000000000000000000000000000000000000000000000000000000000000000000000000000000000000000000000000000000000000000000000000000000000000000000000000000000000000000000000000000000000000000000000000000000000000000000000000000000000000000000000000000000000000000000000000000000000000000000000000000000000000000000000000000000⟩ : SIR) :=
    subStep_eval _ _ _ _ _ _ _ _ _ _ (by norm_num) (by norm_num)
      (by norm_num) (by norm_num) (by norm_num) (by norm_num) (by norm_num)
  have e : (subStep (3/10) (1/10) 101 1)^[10] (⟨100, 1, 0⟩ : SIR) =
      (subStep (3/10) (1/10) 101 1 (subStep (3/10) (1/10) 101 1 (subStep (3/10) (1/10) 101 1 (subStep (3/10) (1/10) 101 1 (subStep (3/10) (1/10) 101 1 (subStep (3/10) (1/10) 101 1 (subStep (3/10) (1/10) 101 1 (subStep (3/10) (1/10) 101 1 (subStep (3/10) (1/10) 101 1 (subStep (3/10) (1/10) 101 1 (⟨100, 1, 0⟩ : SIR))))))))))) := rfl
  rw [h1, h2, h3, h4, h5, h6, h7, h8, h9, h10] at e
  rw [e]
  refine ⟨by norm_num, by norm_num, ?_⟩
  simp only [total]
  norm_num

end SIRN
